import Mathlib

/-!
Verification of the ProAssist real-time synchronization hub
(`src-tauri/src/lib.rs`): the text-to-slide segmentation engine,
the session store operations, the schedule store, the sync-relay
state handling, and the broadcast commands.

The Rust code is shallowly embedded: pure functions become Lean
functions, stateful Tauri commands become explicit state-passing
functions, and the tokio broadcast channel's send primitive is
modelled by its documented semantics.
-/

namespace ProAssist

/-! ### String primitives

The Rust code uses `str` methods (`trim`, `trim_start`, `lines`,
`starts_with`, `trim_start_matches`). They are realized here directly
over the character list of the string so that every definition reduces
inside the kernel. Whitespace is the ASCII whitespace relevant to both
Rust's `char::is_whitespace` and the inputs of this application. -/

/-- ASCII whitespace, as recognized by Rust `char::is_whitespace`. -/
def charIsWhitespace (c : Char) : Bool :=
  c == ' ' || c == '\t' || c == '\n' || c == '\x0b' || c == '\x0c' || c == '\r'

/-- Rust `str::trim_start` on the character list. -/
def listTrimLeft (l : List Char) : List Char :=
  l.dropWhile charIsWhitespace

/-- Rust `str::trim_end` on the character list. -/
def listTrimRight (l : List Char) : List Char :=
  (l.reverse.dropWhile charIsWhitespace).reverse

/-- Rust `line.trim()`. -/
def rustTrim (s : String) : String :=
  String.mk (listTrimRight (listTrimLeft s.data))

/-- `charsStartWith s p` is Rust `s.starts_with(p)`. -/
def charsStartWith : List Char → List Char → Bool
  | _, [] => true
  | [], _ :: _ => false
  | c :: cs, p :: ps => c == p && charsStartWith cs ps

/-- Whether a trimmed string is empty: Rust `s.trim().is_empty()`,
the blank-line test of the scan loop. -/
def isBlankLine (s : String) : Bool :=
  (rustTrim s).data.isEmpty

/-! ### Line splitting

Rust's `str::lines()`: pieces are split at `'\n'`; a `'\r'` directly
before a split `'\n'` is removed; a final empty piece produced by a
trailing newline is dropped. -/

/-- Split a character list at every newline character. -/
def splitNL : List Char → List (List Char)
  | [] => [[]]
  | c :: cs =>
    if c == '\n' then [] :: splitNL cs
    else
      match splitNL cs with
      | [] => [[c]]
      | p :: ps => (c :: p) :: ps

/-- Strip one trailing carriage return, as Rust does for each line that
was terminated by a newline. -/
def stripCR (l : List Char) : List Char :=
  if l.getLast? == some '\r' then l.dropLast else l

/-- Embedding of Rust `text.lines().collect::<Vec<_>>()`. -/
def rustLines (s : String) : List String :=
  if s.data.isEmpty then []
  else
    let parts := splitNL s.data
    (parts.dropLast.map (fun l => String.mk (stripCR l))) ++
      (if (parts.getLastD []).isEmpty then [] else [String.mk (parts.getLastD [])])

/-! ### Indentation handling (`parse_notepad_text` helpers) -/

/-- `line.starts_with('\t') || line.starts_with("    ")` from the source. -/
def isIndented (l : String) : Bool :=
  charsStartWith l.data ['\t'] || charsStartWith l.data [' ', ' ', ' ', ' ']

/-- Repeatedly remove a leading run of four spaces, the character-list
core of Rust `trim_start_matches("    ")`. -/
def dropFourSpacesAux : List Char → List Char
  | ' ' :: ' ' :: ' ' :: ' ' :: rest => dropFourSpacesAux rest
  | l => l

/-- Embedding of the indent-stripping chain applied to orphan and child
lines in the source:
`line.trim_start_matches('\t').trim_start_matches("    ").trim_start()`. -/
def stripIndent (s : String) : String :=
  String.mk (listTrimLeft (dropFourSpacesAux ((s.data).dropWhile (fun c => c == '\t'))))

/-! ### Slide data model -/

/-- Rust struct `LiveSlideItem { text, is_sub_item }`. -/
structure LiveSlideItem where
  text : String
  is_sub_item : Bool
deriving Repr, DecidableEq

/-- Rust struct `LiveSlide { items, color }`. -/
structure LiveSlide where
  items : List LiveSlideItem
  color : String
deriving Repr, DecidableEq

/-- The fixed eight-entry palette `SLIDE_COLORS` from the source. -/
def SLIDE_COLORS : List String :=
  ["#3B82F6", "#F59E0B", "#EC4899", "#10B981",
   "#8B5CF6", "#EF4444", "#06B6D4", "#F97316"]

/-- `SLIDE_COLORS[color_index % SLIDE_COLORS.len()]` (the index is always
in range, so the default is never used). -/
def paletteColor (colorIndex : Nat) : String :=
  SLIDE_COLORS.getD (colorIndex % SLIDE_COLORS.length) ""

/-! ### The segmentation engine `parse_notepad_text`

The Rust `while` loop over the line vector is translated into structural
recursion over the list of remaining lines; the two inner look-ahead
loops (collecting indented children, and collecting a run of consecutive
bare lines) become `collectChildren` and `collectRun`. -/

/-- The child-collecting look-ahead loop (source lines 406-426): scan
while the next line is non-blank and indented, stripping each child;
a child whose stripped text is empty is skipped. Returns the collected
children and the lines that remain after the scan. -/
def collectChildren : List String → List String × List String
  | [] => ([], [])
  | l :: ls =>
    if isBlankLine l then ([], l :: ls)
    else if isIndented l then
      ((if (stripIndent l).data.isEmpty then (collectChildren ls).1
        else stripIndent l :: (collectChildren ls).1),
       (collectChildren ls).2)
    else ([], l :: ls)

/-- The bare-run collecting loop (source lines 431-456): scan while the
line is non-blank and not indented, trimming each line into an item
text. Returns the collected item texts and the remaining lines. -/
def collectRun : List String → List String × List String
  | [] => ([], [])
  | l :: ls =>
    if isBlankLine l then ([], l :: ls)
    else if isIndented l then ([], l :: ls)
    else ((if isBlankLine l then (collectRun ls).1
           else rustTrim l :: (collectRun ls).1),
          (collectRun ls).2)

/-- The per-child slide emission loop (source lines 481-496): one slide
per child with items `[{parent,false},{child,true}]`, each consuming one
palette slot. -/
def childSlides (parentText : String) : List String → Nat → List LiveSlide
  | [], _ => []
  | c :: cs, colorIndex =>
    { items := [{ text := parentText, is_sub_item := false },
                { text := c, is_sub_item := true }],
      color := paletteColor colorIndex } :: childSlides parentText cs (colorIndex + 1)

theorem collectChildren_snd_length : ∀ ls : List String, (collectChildren ls).2.length ≤ ls.length := by
  intro ls
  induction ls with
  | nil => simp [collectChildren]
  | cons l ls ih =>
    simp only [collectChildren]
    split
    · simp
    · split
      · exact Nat.le_succ_of_le ih
      · simp

theorem collectRun_snd_length : ∀ ls : List String, (collectRun ls).2.length ≤ ls.length := by
  intro ls
  induction ls with
  | nil => simp [collectRun]
  | cons l ls ih =>
    simp only [collectRun]
    split
    · simp
    · split
      · simp
      · exact Nat.le_succ_of_le ih

/-- The main scan loop of `parse_notepad_text` (source lines 367-500),
carrying the remaining lines and the current `color_index`. Every loop
iteration of the Rust code consumes at least one line, so the loop is
realized by structural recursion on a fuel bounded below by the number
of remaining lines; `parseNotepadLoop` below supplies that fuel, and
`parseLoopFuel_eq` shows the fuel value is irrelevant once sufficient. -/
def parseLoopFuel : Nat → List String → Nat → List LiveSlide
  | 0, _, _ => []
  | _, [], _ => []
  | fuel + 1, line :: rest, colorIndex =>
    if isBlankLine line then
      parseLoopFuel fuel rest colorIndex
    else if isIndented line then
      (if (stripIndent line).data.isEmpty then [] else
        [{ items := [{ text := stripIndent line, is_sub_item := false }],
           color := paletteColor colorIndex }])
      ++ parseLoopFuel fuel rest
          (if (stripIndent line).data.isEmpty then colorIndex else colorIndex + 1)
    else if isBlankLine line then
      parseLoopFuel fuel rest colorIndex
    else if (collectChildren rest).1.isEmpty then
      { items := (rustTrim line :: (collectRun rest).1).map
          (fun t => { text := t, is_sub_item := false }),
        color := paletteColor 0 }
        :: parseLoopFuel fuel (collectRun rest).2 colorIndex
    else
      ({ items := [{ text := rustTrim line, is_sub_item := false }],
         color := paletteColor colorIndex }
        :: childSlides (rustTrim line) (collectChildren rest).1 (colorIndex + 1))
      ++ parseLoopFuel fuel (collectChildren rest).2
          (colorIndex + 1 + (collectChildren rest).1.length)

/-- The scan loop at its canonical fuel. -/
def parseNotepadLoop (lines : List String) (colorIndex : Nat) : List LiveSlide :=
  parseLoopFuel lines.length lines colorIndex

theorem parseLoopFuel_eq : ∀ fuel lines colorIndex, lines.length ≤ fuel →
    parseLoopFuel fuel lines colorIndex = parseNotepadLoop lines colorIndex := by
  intro fuel
  induction fuel using Nat.strong_induction_on with
  | _ fuel ih =>
    intro lines colorIndex hle
    match fuel, lines with
    | 0, [] => rfl
    | 0, _ :: _ => simp at hle
    | fuel + 1, [] => rfl
    | fuel + 1, line :: rest =>
      have hrest : rest.length ≤ fuel := by
        simpa [Nat.succ_le_succ_iff] using hle
      have hstep : ∀ s : List String, s.length ≤ rest.length → ∀ c : Nat,
          parseLoopFuel fuel s c = parseLoopFuel rest.length s c := by
        intro s hs c
        rw [ih fuel (Nat.lt_succ_self fuel) s c (le_trans hs hrest),
          ih rest.length (Nat.lt_succ_of_le hrest) s c hs]
      show parseLoopFuel (fuel + 1) (line :: rest) colorIndex =
        parseLoopFuel (rest.length + 1) (line :: rest) colorIndex
      simp only [parseLoopFuel]
      rw [hstep rest le_rfl, hstep rest le_rfl,
        hstep (collectRun rest).2 (collectRun_snd_length rest),
        hstep (collectChildren rest).2 (collectChildren_snd_length rest)]

/-- One-step unfolding of the scan loop on a non-empty line list. -/
theorem parseNotepadLoop_cons (line : String) (rest : List String) (colorIndex : Nat) :
    parseNotepadLoop (line :: rest) colorIndex =
    if isBlankLine line then
      parseNotepadLoop rest colorIndex
    else if isIndented line then
      (if (stripIndent line).data.isEmpty then [] else
        [{ items := [{ text := stripIndent line, is_sub_item := false }],
           color := paletteColor colorIndex }])
      ++ parseNotepadLoop rest
          (if (stripIndent line).data.isEmpty then colorIndex else colorIndex + 1)
    else if isBlankLine line then
      parseNotepadLoop rest colorIndex
    else if (collectChildren rest).1.isEmpty then
      { items := (rustTrim line :: (collectRun rest).1).map
          (fun t => { text := t, is_sub_item := false }),
        color := paletteColor 0 }
        :: parseNotepadLoop (collectRun rest).2 colorIndex
    else
      ({ items := [{ text := rustTrim line, is_sub_item := false }],
         color := paletteColor colorIndex }
        :: childSlides (rustTrim line) (collectChildren rest).1 (colorIndex + 1))
      ++ parseNotepadLoop (collectChildren rest).2
          (colorIndex + 1 + (collectChildren rest).1.length) := by
  show parseLoopFuel (rest.length + 1) (line :: rest) colorIndex = _
  simp only [parseLoopFuel]
  rw [parseLoopFuel_eq rest.length rest _ le_rfl,
    parseLoopFuel_eq rest.length rest _ le_rfl,
    parseLoopFuel_eq rest.length (collectRun rest).2 _ (collectRun_snd_length rest),
    parseLoopFuel_eq rest.length (collectChildren rest).2 _ (collectChildren_snd_length rest)]

/-- Embedding of `parse_notepad_text` (source lines 361-503). -/
def parse_notepad_text (text : String) : List LiveSlide :=
  parseNotepadLoop (rustLines text) 0

/-! ### Store data model (schedule, timer, display, sessions) -/

/-- Opaque JSON payload (`serde_json::Value`), carried and re-emitted
without inspection by the hub. -/
abbrev JsonValue := String

/-- Rust struct `ScheduleItem`. -/
structure ScheduleItem where
  id : Int
  session : String
  start_time : String
  end_time : String
  duration : String
  minister : Option String
deriving Repr, DecidableEq

/-- Rust struct `ScheduleState`. -/
structure ScheduleState where
  schedule : List ScheduleItem
  current_session_index : Option Nat
deriving Repr, DecidableEq

/-- Rust struct `TimerState`. -/
structure TimerState where
  is_running : Bool
  time_left : Int
  session_name : Option String
  end_time : Option String
  is_overrun : Bool
deriving Repr, DecidableEq

/-- Rust struct `DisplayScripture`. -/
structure DisplayScripture where
  verse_text : String
  reference : String
deriving Repr, DecidableEq

/-- Rust struct `LiveSlideSession`. -/
structure LiveSlideSession where
  id : String
  name : String
  slides : List LiveSlide
  raw_text : String
  created_at : Nat
deriving Repr, DecidableEq

/-- The sessions map of `ServerState` (`HashMap<String, LiveSlideSession>`),
modelled as a lookup function from session id to session. -/
abbrev SessionsMap := String → Option LiveSlideSession

/-! ### Message envelopes -/

/-- Rust enum `WsMessage`, the presentation hub's wire envelope.
Serialization to JSON is abstracted: events are modelled as envelope
values (`serde_json::to_string` never fails on these variants). -/
inductive WsMessage where
  | TextUpdate (session_id : String) (text : String)
  | JoinSession (session_id : String) (client_type : String)
  | JoinSchedule
  | TranscriptionStream (kind : String) (timestamp : Nat) (engine : String)
      (text : String) (segment : Option JsonValue)
      (scripture_references : Option (List String)) (key_points : Option JsonValue)
  | SlidesUpdate (session_id : String) (slides : List LiveSlide) (raw_text : String)
  | SessionCreated (session : LiveSlideSession)
  | SessionDeleted (session_id : String)
  | ScheduleUpdate (schedule : List ScheduleItem) (current_session_index : Option Nat)
  | TimerUpdate (timer_state : TimerState)
  | JoinTimer
  | JoinDisplay
  | DisplayUpdate (scripture : DisplayScripture) (slides : List String) (settings : JsonValue)
  | Error (message : String)
deriving Repr, DecidableEq

/-- Rust enum `SyncMessage`, the sync relay's wire envelope. -/
inductive SyncMessage where
  | PlaylistItem (playlist_id : String) (item : JsonValue) (action : String) (timestamp : Nat)
  | PlaylistDelete (playlist_id : String) (item_id : String) (timestamp : Nat)
  | Schedule (schedule : List ScheduleItem) (current_session_index : Option Nat) (timestamp : Nat)
  | RequestState (request_playlists : Bool) (request_schedule : Bool)
  | FullState (playlists : Option JsonValue) (schedule : Option (List ScheduleItem))
      (current_session_index : Option Nat) (timestamp : Nat)
  | Join (client_mode : String) (client_id : String)
  | Welcome (server_id : String) (server_mode : String) (connected_clients : Int)
  | Error (message : String)
deriving Repr, DecidableEq

/-- The cached last-seen state of `SyncServerState`: the `playlists`,
`schedule` and `current_session_index` locks. -/
structure SyncCache where
  playlists : Option JsonValue
  schedule : Option (List ScheduleItem)
  current_session_index : Option Nat
deriving Repr, DecidableEq

/-! ### Store operations -/

/-- Embedding of the `update_schedule` command (source lines 3429-3452):
whole-record replace of the stored `ScheduleState` with the given values,
followed by a `ScheduleUpdate` broadcast. The prior state is the first
argument; it is discarded by the replace. -/
def update_schedule (schedule : List ScheduleItem) (current_session_index : Option Nat)
    (prior : ScheduleState) : ScheduleState × WsMessage :=
  ({ schedule := schedule, current_session_index := current_session_index },
   WsMessage.ScheduleUpdate schedule current_session_index)

/-- The invariant claimed of the stored schedule: a present
`current_session_index` indexes validly into `schedule`. -/
def scheduleInvariant (st : ScheduleState) : Prop :=
  ∀ i, st.current_session_index = some i → i < st.schedule.length

/-- Result of `upsert_live_slide_session`: the returned session, the
`is_new` flag, the updated sessions map, and the broadcast events in
emission order. -/
structure UpsertResult where
  session : LiveSlideSession
  is_new : Bool
  sessions : SessionsMap
  events : List WsMessage

/-- Embedding of the `upsert_live_slide_session` command (source lines
3319-3370). `now` stands for the wall-clock seconds read at the start of
the call; it is used only when the session id is absent. -/
def upsert_live_slide_session (sessions : SessionsMap)
    (session_id : String) (name : String) (raw_text : String) (now : Nat) : UpsertResult :=
  let slides := parse_notepad_text raw_text
  let created_at := match sessions session_id with
    | some s => s.created_at
    | none => now
  let is_new := (sessions session_id).isNone
  let session : LiveSlideSession :=
    { id := session_id, name := name, slides := slides,
      raw_text := raw_text, created_at := created_at }
  { session := session
    is_new := is_new
    sessions := fun k => if k = session_id then some session else sessions k
    events :=
      (if is_new then [WsMessage.SessionCreated session] else []) ++
        [WsMessage.SlidesUpdate session_id slides raw_text] }

/-- Embedding of the `TextUpdate` arm of `handle_ws_connection` (source
lines 528-549): parse the text, update the session in place when the id
is present (leaving the map untouched otherwise), and in every case
broadcast a `SlidesUpdate` built from the parsed slides. -/
def handleTextUpdate (sessions : SessionsMap) (session_id : String) (text : String) :
    SessionsMap × WsMessage :=
  let slides := parse_notepad_text text
  (fun k =>
    if k = session_id then
      match sessions session_id with
      | some s => some { s with slides := slides, raw_text := text }
      | none => none
    else sessions k,
   WsMessage.SlidesUpdate session_id slides text)

/-- Embedding of the `RequestState` arm of `handle_sync_ws_connection`
(source lines 1125-1154): build a `FullState` reply from the cache,
substituting `None` for each field whose request flag is false. `ts`
stands for the wall-clock timestamp taken when the reply is built. -/
def handleRequestState (cache : SyncCache)
    (request_playlists : Bool) (request_schedule : Bool) (ts : Nat) : SyncMessage :=
  SyncMessage.FullState
    (if request_playlists then cache.playlists else none)
    (if request_schedule then cache.schedule else none)
    (if request_schedule then cache.current_session_index else none)
    ts

/-! ### Broadcast commands -/

/-- Documented semantics of `tokio::sync::broadcast::Sender::send`: the
message is delivered to all currently subscribed receivers; the call
fails (with a `SendError`, displayed as "channel closed") exactly when
there are no active receivers. The hubs create their channels with
`broadcast::channel(100).0`, dropping the initial receiver, so the
receiver count is the number of currently subscribed connections. -/
def broadcastSend (receiverCount : Nat) (message : String) : Except String Nat :=
  if receiverCount = 0 then Except.error "channel closed"
  else Except.ok receiverCount

/-- Embedding of the `broadcast_live_slides_message` command (source
lines 3645-3661): error when the server is not running, otherwise the
send result with a zero-subscriber send failure mapped into the
returned error. -/
def broadcast_live_slides_message (running : Bool) (receiverCount : Nat)
    (message : String) : Except String Unit :=
  if !running then Except.error "Live Slides server is not running"
  else
    match broadcastSend receiverCount message with
    | Except.error e => Except.error ("Failed to broadcast: " ++ e)
    | Except.ok _ => Except.ok ()

/-- The cache update performed by `broadcast_sync_message` when the raw
message decodes as a `SyncMessage` (source lines 3613-3633). -/
def applySyncCacheUpdate (cache : SyncCache) (parsed : Option SyncMessage) : SyncCache :=
  match parsed with
  | none => cache
  | some (SyncMessage.Schedule schedule current_session_index _) =>
    { cache with schedule := some schedule,
                 current_session_index := current_session_index }
  | some (SyncMessage.FullState playlists schedule current_session_index _) =>
    { playlists := match playlists with
        | some p => some p
        | none => cache.playlists
      schedule := match schedule with
        | some s => some s
        | none => cache.schedule
      current_session_index := current_session_index }
  | some _ => cache

/-- Embedding of the `broadcast_sync_message` command (source lines
3604-3639). JSON decoding is abstracted: `parsed` is the result of
`serde_json::from_str` on `message` (`none` when decoding fails, in
which case the cache is left untouched). -/
def broadcast_sync_message (running : Bool) (receiverCount : Nat) (cache : SyncCache)
    (message : String) (parsed : Option SyncMessage) : Except String Unit × SyncCache :=
  if !running then (Except.error "Sync server is not running", cache)
  else
    let cache2 := applySyncCacheUpdate cache parsed
    match broadcastSend receiverCount message with
    | Except.error e => (Except.error ("Failed to broadcast: " ++ e), cache2)
    | Except.ok _ => (Except.ok (), cache2)

/-! ### Server start -/

/-- Embedding of the `start_live_slides_server` command (source lines
3242-3277). After the already-running check, the combined server is
spawned as a background task and the command sleeps briefly and returns
the URL without consulting the spawned task's outcome. `bindResult`
stands for the outcome of binding and running the server in that
background task; the first component is what the command returns to the
caller, the second is the line the background task writes to the error
log (`eprintln!("Server error: {}", e)`) when the server fails. -/
def start_live_slides_server (running : Bool) (port : Nat) (localIp : String)
    (bindResult : Except String Unit) : Except String String × Option String :=
  if running then (Except.error "Server is already running", none)
  else
    (Except.ok ("http://" ++ localIp ++ ":" ++ toString port),
     match bindResult with
     | Except.error e => some ("Server error: " ++ e)
     | Except.ok _ => none)

/-! ### Lemmas on the scan loop -/

theorem collectChildren_stop (rest : List String)
    (h : rest = [] ∨ ∃ b bs, rest = b :: bs ∧ (isBlankLine b = true ∨ isIndented b = false)) :
    collectChildren rest = ([], rest) := by
  rcases h with rfl | ⟨b, bs, rfl, hb | hb⟩
  · rfl
  · simp [collectChildren, hb]
  · by_cases hblank : isBlankLine b = true
    · simp [collectChildren, hblank]
    · simp [collectChildren, hblank, hb]

theorem collectChildren_append (cs rest : List String)
    (hcs : ∀ c ∈ cs, isBlankLine c = false ∧ isIndented c = true ∧
      (stripIndent c).data.isEmpty = false)
    (hrest : rest = [] ∨ ∃ b bs, rest = b :: bs ∧ (isBlankLine b = true ∨ isIndented b = false)) :
    collectChildren (cs ++ rest) = (cs.map stripIndent, rest) := by
  induction cs with
  | nil => simpa using collectChildren_stop rest hrest
  | cons c cs ih =>
    obtain ⟨h1, h2, h3⟩ := hcs c (by simp)
    have ih2 := ih (fun x hx => hcs x (by simp [hx]))
    simp [collectChildren, h1, h2, h3, ih2]

theorem collectRun_stop (rest : List String)
    (h : rest = [] ∨ ∃ b bs, rest = b :: bs ∧ (isBlankLine b = true ∨ isIndented b = true)) :
    collectRun rest = ([], rest) := by
  rcases h with rfl | ⟨b, bs, rfl, hb | hb⟩
  · rfl
  · simp [collectRun, hb]
  · by_cases hblank : isBlankLine b = true
    · simp [collectRun, hblank]
    · simp [collectRun, hblank, hb]

theorem collectRun_append (r rest : List String)
    (hr : ∀ l ∈ r, isBlankLine l = false ∧ isIndented l = false)
    (hrest : rest = [] ∨ ∃ b bs, rest = b :: bs ∧ (isBlankLine b = true ∨ isIndented b = true)) :
    collectRun (r ++ rest) = (r.map rustTrim, rest) := by
  induction r with
  | nil => simpa using collectRun_stop rest hrest
  | cons l r ih =>
    obtain ⟨h1, h2⟩ := hr l (by simp)
    have ih2 := ih (fun x hx => hr x (by simp [hx]))
    simp [collectRun, h1, h2, ih2]

theorem parseNotepadLoop_nil (colorIndex : Nat) : parseNotepadLoop [] colorIndex = [] := rfl

theorem parseNotepadLoop_all_blank :
    ∀ lines : List String, ∀ colorIndex : Nat,
      (∀ l ∈ lines, isBlankLine l = true) → parseNotepadLoop lines colorIndex = [] := by
  intro lines
  induction lines with
  | nil => intro colorIndex h; rfl
  | cons l ls ih =>
    intro colorIndex h
    rw [parseNotepadLoop_cons]
    simp only [h l (by simp), if_true]
    exact ih colorIndex (fun x hx => h x (by simp [hx]))

/-! ### Claim theorems: segmentation -/

/-- C1. The input "Heading\n\tPoint A\n\tPoint B" segments into exactly
three slides: the parent-only slide (palette slot 0), then one build-up
slide per bullet (palette slots 1 and 2). In general, a non-indented
parent line followed by a non-empty contiguous run of indented children
(ending the input or followed by a blank line) yields the parent-only
slide at the current palette slot followed by one two-item slide per
child, consuming one palette slot each, after which scanning resumes
with the color index advanced by one plus the number of children. -/
theorem parent_children_buildup :
    (parse_notepad_text "Heading\n\tPoint A\n\tPoint B" =
      [{ items := [{ text := "Heading", is_sub_item := false }], color := "#3B82F6" },
       { items := [{ text := "Heading", is_sub_item := false },
                   { text := "Point A", is_sub_item := true }], color := "#F59E0B" },
       { items := [{ text := "Heading", is_sub_item := false },
                   { text := "Point B", is_sub_item := true }], color := "#EC4899" }]) ∧
    (∀ p : String, ∀ cs rest : List String, ∀ ci : Nat,
      isBlankLine p = false → isIndented p = false →
      (∀ c ∈ cs, isBlankLine c = false ∧ isIndented c = true ∧
        (stripIndent c).data.isEmpty = false) →
      cs ≠ [] →
      (rest = [] ∨ ∃ b bs, rest = b :: bs ∧ isBlankLine b = true) →
      parseNotepadLoop (p :: (cs ++ rest)) ci =
        ({ items := [{ text := rustTrim p, is_sub_item := false }], color := paletteColor ci }
          :: childSlides (rustTrim p) (cs.map stripIndent) (ci + 1))
        ++ parseNotepadLoop rest (ci + 1 + cs.length)) := by
  constructor
  · decide
  · intro p cs rest ci hp1 hp2 hcs hne hrest
    have hrest2 : rest = [] ∨ ∃ b bs, rest = b :: bs ∧ (isBlankLine b = true ∨ isIndented b = false) := by
      rcases hrest with rfl | ⟨b, bs, rfl, hb⟩
      · exact Or.inl rfl
      · exact Or.inr ⟨b, bs, rfl, Or.inl hb⟩
    have hchildren := collectChildren_append cs rest hcs hrest2
    rw [parseNotepadLoop_cons]
    cases cs with
    | nil => exact absurd rfl hne
    | cons c cs =>
      simp only [List.cons_append] at hchildren
      simp [hp1, hp2, hchildren]

/-- Witness for C1: the general statement applied to the Heading
example itself, at color index 0. -/
theorem parent_children_buildup_witness :
    parseNotepadLoop ["Heading", "\tPoint A", "\tPoint B"] 0 =
      ({ items := [{ text := rustTrim "Heading", is_sub_item := false }],
         color := paletteColor 0 }
        :: childSlides (rustTrim "Heading")
            (["\tPoint A", "\tPoint B"].map stripIndent) 1)
      ++ parseNotepadLoop [] 3 :=
  parent_children_buildup.2 "Heading" ["\tPoint A", "\tPoint B"] [] 0
    (by decide) (by decide) (by decide) (by decide) (Or.inl rfl)

/-- C2. The input "Line1\nLine2\n\nLine3" segments into two slides, the
first holding both bare lines, both colored with palette slot 0. In
general, a non-empty run of consecutive non-indented non-blank lines
(ending the input or followed by a blank line) merges into one slide of
plain items whose color is always palette slot 0, and the color index is
passed unchanged to the rest of the scan. -/
theorem bare_run_palette0 :
    (parse_notepad_text "Line1\nLine2\n\nLine3" =
      [{ items := [{ text := "Line1", is_sub_item := false },
                   { text := "Line2", is_sub_item := false }], color := "#3B82F6" },
       { items := [{ text := "Line3", is_sub_item := false }], color := "#3B82F6" }]) ∧
    (∀ r rest : List String, ∀ ci : Nat,
      r ≠ [] →
      (∀ l ∈ r, isBlankLine l = false ∧ isIndented l = false) →
      (rest = [] ∨ ∃ b bs, rest = b :: bs ∧ isBlankLine b = true) →
      parseNotepadLoop (r ++ rest) ci =
        { items := (r.map rustTrim).map (fun t => { text := t, is_sub_item := false }),
          color := paletteColor 0 }
          :: parseNotepadLoop rest ci) := by
  constructor
  · decide
  · intro r rest ci hne hr hrest
    cases r with
    | nil => exact absurd rfl hne
    | cons line rtail =>
      obtain ⟨h1, h2⟩ := hr line (by simp)
      have hrtail : ∀ l ∈ rtail, isBlankLine l = false ∧ isIndented l = false :=
        fun x hx => hr x (by simp [hx])
      have hstopChildren : rtail ++ rest = [] ∨
          ∃ b bs, rtail ++ rest = b :: bs ∧ (isBlankLine b = true ∨ isIndented b = false) := by
        cases rtail with
        | nil =>
          rcases hrest with rfl | ⟨b, bs, rfl, hb⟩
          · exact Or.inl rfl
          · exact Or.inr ⟨b, bs, rfl, Or.inl hb⟩
        | cons x xs =>
          exact Or.inr ⟨x, xs ++ rest, rfl, Or.inr (hrtail x (by simp)).2⟩
      have hstopRun : rest = [] ∨
          ∃ b bs, rest = b :: bs ∧ (isBlankLine b = true ∨ isIndented b = true) := by
        rcases hrest with rfl | ⟨b, bs, rfl, hb⟩
        · exact Or.inl rfl
        · exact Or.inr ⟨b, bs, rfl, Or.inl hb⟩
      have hchildren := collectChildren_stop (rtail ++ rest) hstopChildren
      have hrun := collectRun_append rtail rest hrtail hstopRun
      rw [List.cons_append, parseNotepadLoop_cons]
      simp [h1, h2, hchildren, hrun]

/-- Witness for C2: the general statement applied to the run
["Line1", "Line2"] followed by a blank line and "Line3", at the nonzero
color index 5 — the run slide still takes palette slot 0 and the rest of
the scan still starts at color index 5. -/
theorem bare_run_palette0_witness :
    parseNotepadLoop (["Line1", "Line2"] ++ ["", "Line3"]) 5 =
      { items := ((["Line1", "Line2"] : List String).map rustTrim).map
          (fun t => { text := t, is_sub_item := false }),
        color := paletteColor 0 }
        :: parseNotepadLoop ["", "Line3"] 5 :=
  bare_run_palette0.2 ["Line1", "Line2"] ["", "Line3"] 5
    (by decide) (by decide) (Or.inr ⟨"", ["Line3"], rfl, by decide⟩)

/-- C3. Segmentation is a pure function of the input text: the embedding
`parse_notepad_text` takes no state besides its argument (the Rust
function reads only its `&str` argument and the constant palette), so
identical input yields an identical slide list; and empty or all-blank
input yields the empty list. -/
theorem segmentation_pure_blank :
    (∀ t1 t2 : String, t1 = t2 → parse_notepad_text t1 = parse_notepad_text t2) ∧
    (parse_notepad_text "" = []) ∧
    (∀ t : String, (∀ l ∈ rustLines t, isBlankLine l = true) → parse_notepad_text t = []) := by
  refine ⟨fun t1 t2 h => by rw [h], rfl, fun t h => ?_⟩
  exact parseNotepadLoop_all_blank (rustLines t) 0 h

/-- Witness for C3: the whitespace-only text "\n  \n\t\n" segments to
the empty slide list. -/
theorem segmentation_pure_blank_witness :
    parse_notepad_text "\n  \n\t\n" = [] :=
  segmentation_pure_blank.2.2 "\n  \n\t\n" (by decide)

/-! ### Claim theorems: store operations -/

/-- Counterexample for C4: `update_schedule` with an empty schedule and
`currentSessionIndex = Some 0` leaves the out-of-range index stored —
the invariant is violated after the operation. -/
theorem update_schedule_invariant_cex :
    ¬ scheduleInvariant
        (update_schedule [] (some 0) { schedule := [], current_session_index := none }).1 :=
  fun h => absurd (h 0 rfl) (by decide)

/-- C4 (amended). `update_schedule` is a whole-record replace that stores
the given schedule and index exactly as supplied, with no validation and
no clearing: the stored index is in range only when the caller already
passes an in-range (or absent) index. -/
theorem update_schedule_replace (schedule : List ScheduleItem) (idx : Option Nat)
    (prior : ScheduleState) :
    (update_schedule schedule idx prior).1 =
      { schedule := schedule, current_session_index := idx } ∧
    (update_schedule schedule idx prior).2 = WsMessage.ScheduleUpdate schedule idx ∧
    ((∀ i, idx = some i → i < schedule.length) →
      scheduleInvariant (update_schedule schedule idx prior).1) :=
  ⟨rfl, rfl, fun hv i hi => hv i hi⟩

/-- Witness for C4 (amended): on a one-item schedule with index 0 the
replace yields a state satisfying the invariant. -/
theorem update_schedule_replace_witness :
    scheduleInvariant
      (update_schedule [{ id := 1, session := "Opening", start_time := "09:00",
                          end_time := "09:30", duration := "30", minister := none }]
        (some 0) { schedule := [], current_session_index := none }).1 :=
  (update_schedule_replace
      [{ id := 1, session := "Opening", start_time := "09:00",
         end_time := "09:30", duration := "30", minister := none }]
      (some 0) { schedule := [], current_session_index := none }).2.2
    (by intro i hi; injection hi with h2; subst h2; decide)

/-- C7. Two consecutive identical upserts of an absent session id derive
the identical slide list both times from the raw text; the first call is
the creating one and emits `SessionCreated` followed by `SlidesUpdate`,
the second emits only `SlidesUpdate`. -/
theorem upsert_idempotent (sessions : SessionsMap) (sid nm raw : String) (t1 t2 : Nat)
    (h : sessions sid = none) :
    (upsert_live_slide_session sessions sid nm raw t1).session.slides =
      parse_notepad_text raw ∧
    (upsert_live_slide_session
        (upsert_live_slide_session sessions sid nm raw t1).sessions
        sid nm raw t2).session.slides = parse_notepad_text raw ∧
    (upsert_live_slide_session sessions sid nm raw t1).is_new = true ∧
    (upsert_live_slide_session
        (upsert_live_slide_session sessions sid nm raw t1).sessions
        sid nm raw t2).is_new = false ∧
    (upsert_live_slide_session sessions sid nm raw t1).events =
      [WsMessage.SessionCreated (upsert_live_slide_session sessions sid nm raw t1).session,
       WsMessage.SlidesUpdate sid (parse_notepad_text raw) raw] ∧
    (upsert_live_slide_session
        (upsert_live_slide_session sessions sid nm raw t1).sessions
        sid nm raw t2).events =
      [WsMessage.SlidesUpdate sid (parse_notepad_text raw) raw] := by
  refine ⟨rfl, rfl, ?_, ?_, ?_, ?_⟩
  · simp [upsert_live_slide_session, h]
  · simp [upsert_live_slide_session, h]
  · simp [upsert_live_slide_session, h]
  · simp [upsert_live_slide_session, h]

/-- Witness for C7: both upserts on the empty map, checked on a concrete
session. -/
theorem upsert_idempotent_witness :
    (upsert_live_slide_session (fun _ => none) "s1" "Main" "Heading\n\tPoint A" 10).is_new
        = true ∧
    (upsert_live_slide_session
        (upsert_live_slide_session (fun _ => none) "s1" "Main" "Heading\n\tPoint A" 10).sessions
        "s1" "Main" "Heading\n\tPoint A" 20).is_new = false ∧
    (upsert_live_slide_session
        (upsert_live_slide_session (fun _ => none) "s1" "Main" "Heading\n\tPoint A" 10).sessions
        "s1" "Main" "Heading\n\tPoint A" 20).events =
      [WsMessage.SlidesUpdate "s1" (parse_notepad_text "Heading\n\tPoint A")
        "Heading\n\tPoint A"] :=
  ⟨(upsert_idempotent (fun _ => none) "s1" "Main" "Heading\n\tPoint A" 10 20 rfl).2.2.1,
   (upsert_idempotent (fun _ => none) "s1" "Main" "Heading\n\tPoint A" 10 20 rfl).2.2.2.1,
   (upsert_idempotent (fun _ => none) "s1" "Main" "Heading\n\tPoint A" 10 20 rfl).2.2.2.2.2⟩

/-- Counterexample for C8: upserting an existing session with a
different name replaces the stored name with the new argument — the
pre-existing `name` field is not left unchanged. -/
theorem upsert_name_cex :
    (((upsert_live_slide_session
        (fun k => if k = "s" then
          some { id := "s", name := "Old", slides := [], raw_text := "", created_at := 10 }
          else none)
        "s" "New" "txt" 99).sessions "s").map LiveSlideSession.name = some "New") ∧
    ¬ (((upsert_live_slide_session
        (fun k => if k = "s" then
          some { id := "s", name := "Old", slides := [], raw_text := "", created_at := 10 }
          else none)
        "s" "New" "txt" 99).sessions "s").map LiveSlideSession.name = some "Old") := by
  constructor
  · decide
  · decide

/-- C8 (amended). Upserting an existing session replaces its `slides`
(re-derived from the raw text via the segmentation engine), `raw_text`
and `name` with the given arguments, preserves `id` and the original
`created_at`, reports the session as not new, and leaves every other map
entry untouched; `now` is not consulted. -/
theorem upsert_existing_frame (sessions : SessionsMap) (sid nm raw : String) (now : Nat)
    (old : LiveSlideSession) (h : sessions sid = some old) :
    (upsert_live_slide_session sessions sid nm raw now).sessions sid =
      some { id := sid, name := nm, slides := parse_notepad_text raw,
             raw_text := raw, created_at := old.created_at } ∧
    (upsert_live_slide_session sessions sid nm raw now).is_new = false ∧
    (upsert_live_slide_session sessions sid nm raw now).session.created_at =
      old.created_at ∧
    (∀ k, k ≠ sid →
      (upsert_live_slide_session sessions sid nm raw now).sessions k = sessions k) := by
  refine ⟨?_, ?_, ?_, ?_⟩
  · simp [upsert_live_slide_session, h]
  · simp [upsert_live_slide_session, h]
  · simp [upsert_live_slide_session, h]
  · intro k hk
    simp [upsert_live_slide_session, hk]

/-- Witness for C8 (amended): a concrete in-place update preserving
`created_at` and the other map entry. -/
theorem upsert_existing_frame_witness :
    (upsert_live_slide_session
        (fun k => if k = "s" then
          some { id := "s", name := "Old", slides := [], raw_text := "", created_at := 10 }
          else none)
        "s" "New" "Heading" 99).session.created_at = 10 ∧
    (upsert_live_slide_session
        (fun k => if k = "s" then
          some { id := "s", name := "Old", slides := [], raw_text := "", created_at := 10 }
          else none)
        "s" "New" "Heading" 99).sessions "other" = none :=
  ⟨(upsert_existing_frame
      (fun k => if k = "s" then
        some { id := "s", name := "Old", slides := [], raw_text := "", created_at := 10 }
        else none)
      "s" "New" "Heading" 99
      { id := "s", name := "Old", slides := [], raw_text := "", created_at := 10 }
      rfl).2.2.1,
   (upsert_existing_frame
      (fun k => if k = "s" then
        some { id := "s", name := "Old", slides := [], raw_text := "", created_at := 10 }
        else none)
      "s" "New" "Heading" 99
      { id := "s", name := "Old", slides := [], raw_text := "", created_at := 10 }
      rfl).2.2.2 "other" (by decide)⟩

/-! ### Claim theorems: connection handlers -/

/-- C9. A `RequestState` with both flags false is answered by a
`FullState` whose `playlists`, `schedule` and `currentSessionIndex`
fields are all absent, whatever the cache holds; and in general a false
`requestPlaylists` makes the playlists field absent, and a false
`requestSchedule` makes both the schedule and the index fields absent. -/
theorem request_state_absent :
    (∀ cache : SyncCache, ∀ ts : Nat,
      handleRequestState cache false false ts = SyncMessage.FullState none none none ts) ∧
    (∀ cache : SyncCache, ∀ rp rs : Bool, ∀ ts : Nat,
      (rp = false → ∃ s i, handleRequestState cache rp rs ts =
        SyncMessage.FullState none s i ts) ∧
      (rs = false → ∃ p, handleRequestState cache rp rs ts =
        SyncMessage.FullState p none none ts)) := by
  refine ⟨fun cache ts => rfl, fun cache rp rs ts => ⟨?_, ?_⟩⟩
  · rintro rfl
    exact ⟨_, _, rfl⟩
  · rintro rfl
    exact ⟨_, rfl⟩

/-- Witness for C9: a fully populated cache still yields an all-absent
`FullState` for `RequestState{false,false}`, and an absent schedule part
for `RequestState{true,false}`. -/
theorem request_state_absent_witness :
    handleRequestState { playlists := some "[]", schedule := some [],
                         current_session_index := some 3 } false false 7 =
      SyncMessage.FullState none none none 7 ∧
    ∃ p, handleRequestState { playlists := some "[]", schedule := some [],
                              current_session_index := some 3 } true false 9 =
      SyncMessage.FullState p none none 9 :=
  ⟨request_state_absent.1
      { playlists := some "[]", schedule := some [], current_session_index := some 3 } 7,
   (request_state_absent.2
      { playlists := some "[]", schedule := some [], current_session_index := some 3 }
      true false 9).2 rfl⟩

/-- C10. A `TextUpdate` for a session id absent from the sessions map
leaves the map unchanged at every key, yet a `SlidesUpdate` carrying
that id, the slides parsed from the text, and the raw text is still
broadcast. -/
theorem text_update_unknown (sessions : SessionsMap) (sid text : String)
    (h : sessions sid = none) :
    (∀ k, (handleTextUpdate sessions sid text).1 k = sessions k) ∧
    (handleTextUpdate sessions sid text).2 =
      WsMessage.SlidesUpdate sid (parse_notepad_text text) text := by
  constructor
  · intro k
    by_cases hk : k = sid
    · subst hk
      simp [handleTextUpdate, h]
    · simp [handleTextUpdate, hk]
  · rfl

/-- Witness for C10: a `TextUpdate` on the empty map creates nothing and
still broadcasts the parsed slides. -/
theorem text_update_unknown_witness :
    (handleTextUpdate (fun _ => none) "s1" "Hello").1 "s1" = none ∧
    (handleTextUpdate (fun _ => none) "s1" "Hello").2 =
      WsMessage.SlidesUpdate "s1" (parse_notepad_text "Hello") "Hello" :=
  ⟨(text_update_unknown (fun _ => none) "s1" "Hello" rfl).1 "s1",
   (text_update_unknown (fun _ => none) "s1" "Hello" rfl).2⟩

/-! ### Claim theorems: server lifecycle and broadcast commands -/

/-- Counterexample for C5: starting on a port whose bind fails still
returns the success URL to the caller — the bind error is not surfaced
by the call. -/
theorem start_server_bindfail_cex :
    (start_live_slides_server false 9876 "127.0.0.1"
      (Except.error "port already in use")).1 =
      Except.ok "http://127.0.0.1:9876" := by
  rfl

/-- C5 (amended). `start_live_slides_server` returns the URL without
consulting the outcome of the server task it spawns: when not already
running, the caller always receives `Ok(url)`; a bind failure is only
written to the background error log; only the already-running case is
surfaced as an error. -/
theorem start_server_background (port : Nat) (ip : String)
    (bindResult : Except String Unit) :
    (start_live_slides_server false port ip bindResult).1 =
      Except.ok ("http://" ++ ip ++ ":" ++ toString port) ∧
    (∀ e, bindResult = Except.error e →
      (start_live_slides_server false port ip bindResult).2 =
        some ("Server error: " ++ e)) ∧
    (start_live_slides_server true port ip bindResult).1 =
      Except.error "Server is already running" := by
  refine ⟨rfl, ?_, rfl⟩
  rintro e rfl
  rfl

/-- Witness for C5 (amended): a failing bind on port 80 still yields the
URL, and the failure only reaches the log line. -/
theorem start_server_background_witness :
    (start_live_slides_server false 80 "10.0.0.2"
        (Except.error "Address already in use")).1 =
      Except.ok ("http://" ++ "10.0.0.2" ++ ":" ++ toString 80) ∧
    (start_live_slides_server false 80 "10.0.0.2"
        (Except.error "Address already in use")).2 =
      some ("Server error: " ++ "Address already in use") :=
  ⟨(start_server_background 80 "10.0.0.2" (Except.error "Address already in use")).1,
   (start_server_background 80 "10.0.0.2" (Except.error "Address already in use")).2.1
     "Address already in use" rfl⟩

/-- Counterexample for C6: with the server running and zero subscribers,
both raw-broadcast commands return an error, not success. -/
theorem broadcast_zero_subs_cex :
    (broadcast_live_slides_message true 0 "msg").isOk = false ∧
    ((broadcast_sync_message true 0
        { playlists := none, schedule := none, current_session_index := none }
        "msg" none).1).isOk = false := by
  constructor
  · rfl
  · rfl

/-- C6 (amended). With the server running, the raw-broadcast commands
`broadcast_live_slides_message` and `broadcast_sync_message` surface the
channel's zero-subscriber send failure as an error ("Failed to
broadcast: channel closed"); with at least one subscriber they return
success. (The hub's internal publish sites ignore the send result
instead, so for them a zero-subscriber publish is a silent no-op.) -/
theorem broadcast_send_result (rc : Nat) (msg : String) (cache : SyncCache)
    (parsed : Option SyncMessage) :
    (rc = 0 →
      broadcast_live_slides_message true rc msg =
        Except.error ("Failed to broadcast: " ++ "channel closed") ∧
      (broadcast_sync_message true rc cache msg parsed).1 =
        Except.error ("Failed to broadcast: " ++ "channel closed")) ∧
    (rc ≠ 0 →
      broadcast_live_slides_message true rc msg = Except.ok () ∧
      (broadcast_sync_message true rc cache msg parsed).1 = Except.ok ()) := by
  constructor
  · rintro rfl
    exact ⟨rfl, rfl⟩
  · intro h
    constructor
    · simp [broadcast_live_slides_message, broadcastSend, h]
    · simp [broadcast_sync_message, broadcastSend, h]

/-- Witness for C6 (amended): zero subscribers error out, one subscriber
succeeds. -/
theorem broadcast_send_result_witness :
    broadcast_live_slides_message true 0 "m" =
      Except.error ("Failed to broadcast: " ++ "channel closed") ∧
    broadcast_live_slides_message true 1 "m" = Except.ok () :=
  ⟨((broadcast_send_result 0 "m"
      { playlists := none, schedule := none, current_session_index := none } none).1
      rfl).1,
   ((broadcast_send_result 1 "m"
      { playlists := none, schedule := none, current_session_index := none } none).2
      (by decide)).1⟩

end ProAssist
